import Mathlib

/-!
Shallow embedding of `src/ssim/actor.py` and `src/ssim/state.py`
(repository `selection-sim`).

Modelling conventions:
* Python `int` is `Int`; Python numeric values flowing through `trigger`
  are `ℚ` because Python's `/` is true division (exact for every concrete
  value used below).  Weight tables (`List[float]`) are `List ℚ`.
* The process-wide random source (`random.randrange`, `numpy.random.choice`)
  is threaded explicitly as an `RNG`: an infinite stream of raw draws plus a
  cursor.  A primitive that samples from a range of size `n` consumes one raw
  draw and reduces it modulo `n`; quantifying over all streams covers every
  sequence of outcomes the library generators can produce.
* Python exceptions are the error side of `Except PyErr`.
* CPython aborts deep recursion with `RecursionError`; the embedding gives
  the recursive generator `ResponseNetNode.random` a fuel parameter and
  raises `PyErr.recursionError` when the fuel is exhausted, since the source
  has no depth bound of its own.
-/

/- Batteries seals `Rat.add` behind `irreducible`; concrete runs of the
   samplers below must evaluate weight-table sums, so restore the default
   reducibility for this file. -/
attribute [local semireducible] Rat.add

/-- Python exceptions that the embedded code can raise. -/
inductive PyErr where
  /-- `TypeError` (e.g. calling a two-parameter method with one argument). -/
  | typeError : PyErr
  /-- `ZeroDivisionError` raised by `/` with a zero divisor. -/
  | zeroDivisionError : PyErr
  /-- `ValueError("empty range for randrange()")` — the spec's InvalidRange. -/
  | emptyRange : PyErr
  /-- `ValueError` from `numpy.random.choice` on a malformed `p` vector —
      the spec's InvalidWeights. -/
  | invalidWeights : PyErr
  /-- `RecursionError`: the interpreter's recursion limit was hit. -/
  | recursionError : PyErr
deriving DecidableEq, Repr

/-- The shared random source: an infinite stream of raw natural draws and a
    cursor marking how much entropy has been consumed. -/
structure RNG where
  stream : Nat → Nat
  pos : Nat

/-- Consume one raw draw. -/
def RNG.next (g : RNG) : Nat × RNG :=
  (g.stream g.pos, ⟨g.stream, g.pos + 1⟩)

/-- `random.randrange(n)`: an integer uniform in `[0, n)`; raises
    `ValueError` ("empty range") when `n <= 0`. -/
def randrange (n : Int) (g : RNG) : Except PyErr (Int × RNG) :=
  if n ≤ 0 then .error .emptyRange
  else
    let (d, g') := g.next
    .ok ((d % n.toNat : Nat), g')

/-- `numpy.random.choice(options, 1, p=weights)[0]`: one categorical draw.
    `numpy` raises `ValueError` when `p`'s size differs from `options`, when
    an entry of `p` is negative, or when `p` does not sum to 1 (a float
    tolerance check, rendered here as the exact rational identity — exact for
    the dyadic-free tables this development uses).  On a valid table the draw
    consumes one raw stream value, reduced modulo the number of options. -/
def choice {α : Type} [Inhabited α] (options : List α) (weights : List ℚ)
    (g : RNG) : Except PyErr (α × RNG) :=
  if options.length = weights.length ∧ 0 < options.length ∧
      (∀ x ∈ weights, 0 ≤ x) ∧ weights.sum = 1 then
    let (d, g') := g.next
    .ok (options.getD (d % options.length) default, g')
  else .error .invalidWeights

/-- `state.Mutation`. -/
inductive Mutation where
  | INJECT : Mutation
  | DISPLAY : Mutation
deriving DecidableEq, Repr, Inhabited

/-- `Mutation.random(weights)` from `state.py`. -/
def Mutation.random (weights : List ℚ) (g : RNG) : Except PyErr (Mutation × RNG) :=
  choice [Mutation.INJECT, Mutation.DISPLAY] weights g

/-- `actor.Condition`. -/
inductive Condition where
  | EQ : Condition
  | NE : Condition
  | GE : Condition
  | G : Condition
  | LE : Condition
  | L : Condition
deriving DecidableEq, Repr, Inhabited

/-- The enum member's `value` (`EQ = 1`, …, `L = 6`). -/
def Condition.value : Condition → Nat
  | .EQ => 1
  | .NE => 2
  | .GE => 3
  | .G => 4
  | .LE => 5
  | .L => 6

/-- `Condition.is_active(self, a, b)`: the `if self.value == 1 … else` chain
    of `actor.py` lines 138–149. -/
def Condition.is_active (c : Condition) (a b : Int) : Bool :=
  if c.value = 1 then a = b
  else if c.value = 2 then a ≠ b
  else if c.value = 3 then a ≥ b
  else if c.value = 4 then a > b
  else if c.value = 5 then a ≤ b
  else a < b

/-- `Condition.random(weights)`. -/
def Condition.random (weights : List ℚ) (g : RNG) : Except PyErr (Condition × RNG) :=
  choice [Condition.EQ, Condition.NE, Condition.GE, Condition.G, Condition.LE,
    Condition.L] weights g

/-- `actor.ModificationOperation`. -/
inductive ModificationOperation where
  | ADD : ModificationOperation
  | SUB : ModificationOperation
  | MUL : ModificationOperation
  | DIV : ModificationOperation
deriving DecidableEq, Repr, Inhabited

/-- `ModificationOperation.random(weights)`. -/
def ModificationOperation.random (weights : List ℚ) (g : RNG) :
    Except PyErr (ModificationOperation × RNG) :=
  choice [ModificationOperation.ADD, ModificationOperation.SUB,
    ModificationOperation.MUL, ModificationOperation.DIV] weights g

/-- `actor.InputModifier`: an operation tag plus its operand (`applicant`). -/
structure InputModifier where
  mode : ModificationOperation
  applicant : Int
deriving DecidableEq, Repr

/-- `InputModifier.random(weights, max_applicant)`: Python evaluates the
    constructor arguments left to right, so the operation is sampled before
    `randrange(max_applicant)` runs. -/
def InputModifier.random (weights : List ℚ) (max_applicant : Int) (g : RNG) :
    Except PyErr (InputModifier × RNG) := do
  let (op, g) ← ModificationOperation.random weights g
  let (a, g) ← randrange max_applicant g
  .ok (⟨op, a⟩, g)

/-- `InputModifier.apply(self, i)`: the `if`/`elif` chain of `actor.py`
    lines 262–269.  The final branch is Python's true division `/`, which
    raises `ZeroDivisionError` on a zero `applicant` and otherwise produces
    an exact quotient (a float in Python, modelled as the rational it denotes,
    exact for every concrete value used in this development). -/
def InputModifier.apply (m : InputModifier) (i : ℚ) : Except PyErr ℚ :=
  if m.mode = .ADD then .ok (i + m.applicant)
  else if m.mode = .SUB then .ok (i - m.applicant)
  else if m.mode = .MUL then .ok (i * m.applicant)
  else if m.applicant = 0 then .error .zeroDivisionError
  else .ok (i / m.applicant)

/-- `actor.ResponseNetNode`: a condition, an ordered list of children, an
    input modifier and a resultant mutation.  The source defines no
    `threshold` field. -/
inductive ResponseNetNode where
  | mk (condition : Condition) (children : List ResponseNetNode)
      (input_modifier : InputModifier) (resultant_mutation : Mutation) :
      ResponseNetNode

/-- Field accessor: `condition`. -/
def ResponseNetNode.condition : ResponseNetNode → Condition
  | .mk c _ _ _ => c

/-- Field accessor: `children`. -/
def ResponseNetNode.children : ResponseNetNode → List ResponseNetNode
  | .mk _ ch _ _ => ch

/-- Field accessor: `input_modifier`. -/
def ResponseNetNode.input_modifier : ResponseNetNode → InputModifier
  | .mk _ _ im _ => im

/-- Field accessor: `resultant_mutation`. -/
def ResponseNetNode.resultant_mutation : ResponseNetNode → Mutation
  | .mk _ _ _ m => m

/-- `ResponseNetNode.random` (`actor.py` lines 60–77).  The draw order follows
    Python evaluation: first `n_children = floor(randrange(max_children))`
    (floor is the identity on an int), then, left to right inside the
    constructor call, `Condition.random`, the children expression, then
    `InputModifier.random` and `Mutation.random`.  The children expression is
    `[ResponseNetNode.random(...)] * n_children`: ONE recursive call whose
    result is replicated `n_children` times.  The source bounds neither depth
    nor recursion; the fuel argument models CPython's recursion limit, whose
    exhaustion raises `RecursionError`. -/
def ResponseNetNode.random (condition_weights : List ℚ) (max_children : Int)
    (input_modifier_weights : List ℚ) (max_input_modifier : Int)
    (mutation_weights : List ℚ) :
    Nat → RNG → Except PyErr (ResponseNetNode × RNG)
  | fuel, g => do
    let (n_children, g) ← randrange max_children g
    let (cond, g) ← Condition.random condition_weights g
    let (children, g) ←
      if n_children > 0 then
        match fuel with
        | 0 => Except.error PyErr.recursionError
        | fuel' + 1 => do
          let (child, g) ← ResponseNetNode.random condition_weights
            max_children input_modifier_weights max_input_modifier
            mutation_weights fuel' g
          Except.ok (List.replicate n_children.toNat child, g)
      else Except.ok ([], g)
    let (im, g) ← InputModifier.random input_modifier_weights max_input_modifier g
    let (mu, g) ← Mutation.random mutation_weights g
    .ok (⟨cond, children, im, mu⟩, g)

/-- `actor.py` line 98 evaluates `self.children[i].condition.is_active(stimulus)`:
    the two-parameter method `is_active(self, a, b)` is invoked with a single
    argument, so Python raises `TypeError` before any comparison happens. -/
def isActiveOneArgCall (_c : Condition) (_a : ℚ) : Except PyErr Bool :=
  .error .typeError

mutual
/-- `ResponseNetNode.trigger(self, stimulus)` (`actor.py` lines 79–99): apply
    the input modifier, then scan the children in order; a Python function that
    falls off the end of its body returns `None`, hence the `Option` result. -/
def ResponseNetNode.trigger : ResponseNetNode → ℚ → Except PyErr (Option ℚ)
  | .mk _ children im _, stimulus => do
    let s ← im.apply stimulus
    ResponseNetNode.triggerScan children s

/-- The `for i in range(len(self.children))` loop of `trigger`: test each child
    in list order, return the first activated child's `trigger`; fall through
    to `None` when no child activated. -/
def ResponseNetNode.triggerScan : List ResponseNetNode → ℚ → Except PyErr (Option ℚ)
  | [], _ => .ok none
  | c :: rest, s => do
    let b ← isActiveOneArgCall c.condition s
    if b then c.trigger s else ResponseNetNode.triggerScan rest s
end

mutual
/-- `trigger` again, with the process-wide random source (the module's only
    shared mutable state) threaded through explicitly, exactly as the source
    reads: no statement of `trigger`, `apply` or the failing `is_active` call
    consumes or updates it.  Comparing this with the stateless
    `ResponseNetNode.trigger` proves traversal touches no shared state. -/
def ResponseNetNode.triggerW : ResponseNetNode → ℚ → RNG →
    Except PyErr (Option ℚ × RNG)
  | .mk _ children im _, stimulus, g => do
    let s ← im.apply stimulus
    ResponseNetNode.triggerScanW children s g

/-- The scanning loop of `triggerW`. -/
def ResponseNetNode.triggerScanW : List ResponseNetNode → ℚ → RNG →
    Except PyErr (Option ℚ × RNG)
  | [], _, g => .ok (none, g)
  | c :: rest, s, g => do
    let b ← isActiveOneArgCall c.condition s
    if b then c.triggerW s g else ResponseNetNode.triggerScanW rest s g
end

/-! Concrete material shared by the theorems below: valid weight tables (six,
four and two entries), small hand-built trees, and explicit entropy streams. -/

/-- A valid 6-entry condition weight table: six entries of 1/6, all positive,
    summing to 1 (so every condition draw has positive probability). -/
def cw6 : List ℚ :=
  [mkRat 1 6, mkRat 1 6, mkRat 1 6, mkRat 1 6, mkRat 1 6, mkRat 1 6]

/-- A valid 4-entry modification-operation weight table: four entries of 1/4. -/
def imw4 : List ℚ := [mkRat 1 4, mkRat 1 4, mkRat 1 4, mkRat 1 4]

/-- A valid 2-entry mutation weight table: two entries of 1/2. -/
def mw2 : List ℚ := [mkRat 1 2, mkRat 1 2]

/-- A leaf node: condition EQ, no children, modifier ADD 0, mutation INJECT. -/
def leafA : ResponseNetNode := .mk .EQ [] ⟨.ADD, 0⟩ .INJECT

/-- A node with one child (`leafA`), modifier ADD 0, mutation DISPLAY. -/
def nodeB : ResponseNetNode := .mk .EQ [leafA] ⟨.ADD, 0⟩ .DISPLAY

/-- A second distinct leaf: condition GE, modifier SUB 1, mutation DISPLAY. -/
def leafC : ResponseNetNode := .mk .GE [] ⟨.SUB, 1⟩ .DISPLAY

/-- An entropy stream whose successive raw draws are 2, 0, 0, 1, 0, 4, 0, 1,
    3, 1: under `ResponseNetNode.random` with `max_children = 3` it makes the
    root draw a child count of 2. -/
def gC3 : RNG := ⟨fun i => [2, 0, 0, 1, 0, 4, 0, 1, 3, 1].getD i 0, 0⟩

/-- The single child that `gC3` makes the root's one recursive call produce. -/
def childC3 : ResponseNetNode := .mk .NE [] ⟨.ADD, 4⟩ .INJECT

/-- An entropy stream whose draws select the DIV operation (index 3 of 4) and
    then the operand 0 from `randrange`. -/
def gDiv0 : RNG := ⟨fun i => [3, 0].getD i 0, 0⟩

/-- An entropy stream drawing 0 then 3: selects ADD and the operand 3. -/
def gW8 : RNG := ⟨fun i => [0, 3].getD i 0, 0⟩

/-- Reduction of a bind over a successful `Except` computation. -/
theorem exceptBindOk {e a b : Type} (x : a) (f : a → Except e b) :
    (Bind.bind (Except.ok x) f : Except e b) = f x := rfl

/-- Reduction of a bind over a failed `Except` computation. -/
theorem exceptBindError {e a b : Type} (er : e) (f : a → Except e b) :
    (Bind.bind (Except.error er) f : Except e b) = Except.error er := rfl

/-- One `choice` draw on a valid weight table (matching arity, non-negative
    entries summing to 1) always succeeds, selecting by the next raw stream
    value modulo the number of options. -/
theorem choice_valid {α : Type} [Inhabited α] (options : List α) (w : List ℚ)
    (g : RNG) (hlen : options.length = w.length) (hpos : 0 < options.length)
    (hnn : ∀ x ∈ w, 0 ≤ x) (hsum : w.sum = 1) :
    choice options w g
      = .ok (options.getD (g.stream g.pos % options.length) default,
        ⟨g.stream, g.pos + 1⟩) := by
  simp only [choice, RNG.next]
  rw [if_pos ⟨hlen, hpos, hnn, hsum⟩]

/-- Closed form of `InputModifier.random` on a valid 4-entry weight table
    (non-negative entries summing to 1): it fails on a non-positive bound and
    otherwise consumes two raw draws, the second reduced modulo `mo.toNat`
    for the operand. -/
theorem inputModifier_random_eq (w : List ℚ) (mo : Int) (g : RNG)
    (hw : w.length = 4) (hnn : ∀ x ∈ w, 0 ≤ x) (hsum : w.sum = 1) :
    InputModifier.random w mo g =
      if mo ≤ 0 then .error .emptyRange
      else .ok (⟨[ModificationOperation.ADD, .SUB, .MUL,
          .DIV].getD (g.stream g.pos % 4) default,
          ((g.stream (g.pos + 1)) % mo.toNat : Nat)⟩,
        ⟨g.stream, g.pos + 2⟩) := by
  simp only [InputModifier.random, ModificationOperation.random]
  rw [choice_valid _ w g (by simp [hw]) (by norm_num) hnn hsum]
  simp only [randrange, RNG.next, exceptBindOk, exceptBindError]
  norm_num
  split
  · rfl
  · rfl

/-- Claim C1: the claim says that when no child matches (in particular on a
    leaf), `trigger` returns the pair `(resultant_mutation, value)` and never
    an absent result.  The code disagrees: on the leaf `leafA` (whose
    `resultant_mutation` is INJECT) with stimulus 0, `trigger` falls off the
    end of its body and returns `None` — the `resultant_mutation` field,
    documented in the source as "the result of hitting the end of the
    response net", is never consulted by `trigger`. -/
theorem trigger_no_child_returns_none : leafA.trigger 0 = .ok none := by rfl

/-- Claim C2: the claim says `trigger` tests each child's condition against
    `(value, child.threshold)` and recurses into the first match.  The code
    disagrees: nodes have no threshold field, and line 98 calls the
    two-parameter `is_active` with a single argument, so on any node with at
    least one child (here `nodeB`, stimulus 5) the scan raises `TypeError`
    at the first child instead of testing anything. -/
theorem trigger_child_test_type_error : nodeB.trigger 5 = .error .typeError := by
  rfl

/-- Claim C3: the claim says the children of a generated node are independent
    recursive draws, no two of them the same.  The code disagrees: it
    evaluates one recursive call and replicates the result.  On the concrete
    entropy stream `gC3` with `max_children = 3` the root draws a child count
    of 2 and both children are the very same single draw `childC3`. -/
theorem random_replicates_one_child :
    (ResponseNetNode.random cw6 3 imw4 5 mw2 1 gC3).map Prod.fst
      = .ok (.mk .EQ [childC3, childC3] ⟨.SUB, 3⟩ .DISPLAY) := by rfl

/-- Claim C4: the claim says the generator accepts a `max_depth` bound and
    forces leaves at that depth.  The source's `random` has no such
    parameter and can recurse without limit: on the constant entropy stream
    that always draws 1, with `max_children = 2`, every node draws exactly
    one child, so generation recurses forever and exhausts the interpreter's
    recursion limit no matter how large the limit (fuel) is. -/
theorem random_unbounded_recursion : ∀ fuel pos : Nat,
    ResponseNetNode.random cw6 2 imw4 5 mw2 fuel ⟨fun _ => 1, pos⟩
      = .error .recursionError := by
  intro fuel
  induction fuel with
  | zero => intro pos; rfl
  | succ n ih =>
    intro pos
    show Except.bind
      (ResponseNetNode.random cw6 2 imw4 5 mw2 n ⟨fun _ => 1, pos + 1 + 1⟩) _
      = Except.error PyErr.recursionError
    rw [ih (pos + 1 + 1)]
    rfl

/-- Claim C5: `is_active` realises exactly the six-relation truth table —
    EQ is equality, NE inequality, GE/G/LE/L the four order relations — as a
    pure total function of the two integer applicants. -/
theorem is_active_truth_table : ∀ a b : ℤ,
    (Condition.EQ.is_active a b = true ↔ a = b) ∧
    (Condition.NE.is_active a b = true ↔ a ≠ b) ∧
    (Condition.GE.is_active a b = true ↔ a ≥ b) ∧
    (Condition.G.is_active a b = true ↔ a > b) ∧
    (Condition.LE.is_active a b = true ↔ a ≤ b) ∧
    (Condition.L.is_active a b = true ↔ a < b) := by
  intro a b
  simp [Condition.is_active, Condition.value]

/-- Claim C6 (counterexample): the claim says every `apply` result is an
    integer.  For the modifier DIV 2 on input 7 the code's true division
    returns 7/2, which is no integer. -/
theorem apply_div_not_integral :
    ¬ ∃ z : ℤ, InputModifier.apply ⟨.DIV, 2⟩ 7 = .ok (z : ℚ) := by
  rintro ⟨z, hz⟩
  have h : InputModifier.apply ⟨.DIV, 2⟩ 7 = .ok ((7 : ℚ) / 2) := by
    simp [InputModifier.apply]
  rw [h] at hz
  have h2 : (7 : ℚ) / 2 = (z : ℚ) := by injection hz
  have h3 : ((7 : ℚ) / 2).den = 1 := by rw [h2]; exact Rat.den_intCast z
  norm_num at h3

/-- Claim C6 (amended): `apply` returns exactly `value + operand` for ADD,
    `value - operand` for SUB, `value * operand` for MUL, and — when the
    operand is non-zero — the true-division quotient `value / operand` for
    DIV, which need not be an integer. -/
theorem apply_op_semantics : ∀ (m : InputModifier) (v : ℚ),
    (m.mode = .ADD → m.apply v = .ok (v + m.applicant)) ∧
    (m.mode = .SUB → m.apply v = .ok (v - m.applicant)) ∧
    (m.mode = .MUL → m.apply v = .ok (v * m.applicant)) ∧
    (m.mode = .DIV → m.applicant ≠ 0 → m.apply v = .ok (v / m.applicant)) := by
  rintro ⟨mode, a⟩ v
  cases mode with
  | ADD => simp [InputModifier.apply]
  | SUB => simp [InputModifier.apply]
  | MUL => simp [InputModifier.apply]
  | DIV => simp [InputModifier.apply]

/-- Claim C6 witness: the amended semantics evaluated at ADD 1 on 3 and at
    DIV 2 on 9. -/
theorem apply_op_semantics_witness :
    InputModifier.apply ⟨.ADD, 1⟩ 3 = .ok (3 + ((1 : ℤ) : ℚ)) ∧
    InputModifier.apply ⟨.DIV, 2⟩ 9 = .ok (9 / ((2 : ℤ) : ℚ)) :=
  ⟨(apply_op_semantics ⟨.ADD, 1⟩ 3).1 rfl,
   (apply_op_semantics ⟨.DIV, 2⟩ 9).2.2.2 rfl (by decide)⟩

/-- Claim C7: `apply` fails with `ZeroDivisionError` exactly when the
    operation is DIV and the operand is 0, deterministically; and that case
    is reachable from `InputModifier.random`, whose operand range starts at
    0 — the stream `gDiv0` makes it return the modifier DIV 0. -/
theorem apply_div_zero_iff :
    (∀ (m : InputModifier) (v : ℚ),
      m.apply v = .error .zeroDivisionError ↔ (m.mode = .DIV ∧ m.applicant = 0)) ∧
    (InputModifier.random imw4 5 gDiv0).map Prod.fst = .ok ⟨.DIV, 0⟩ := by
  constructor
  · rintro ⟨mode, a⟩ v
    cases mode <;> simp [InputModifier.apply]
  · rfl

/-- Claim C7 witness: the DIV 0 modifier applied to 5 raises
    `ZeroDivisionError`. -/
theorem apply_div_zero_iff_witness :
    InputModifier.apply ⟨.DIV, 0⟩ 5 = .error .zeroDivisionError :=
  (apply_div_zero_iff.1 ⟨.DIV, 0⟩ 5).mpr ⟨rfl, rfl⟩

/-- Claim C8: on a valid 4-entry weight table (non-negative entries summing
    to 1, so the preceding operation draw succeeds), `InputModifier.random`
    fails (with the empty-range error, the spec's InvalidRange) whenever
    `max_operand <= 0`, and every modifier it returns has an operand in the
    half-open range `[0, max_operand)`. -/
theorem inputModifier_random_operand_range :
    ∀ (w : List ℚ) (mo : Int) (g : RNG),
    w.length = 4 → (∀ x ∈ w, 0 ≤ x) → w.sum = 1 →
    (mo ≤ 0 → InputModifier.random w mo g = .error .emptyRange) ∧
    (∀ im g2, InputModifier.random w mo g = .ok (im, g2) →
      0 ≤ im.applicant ∧ im.applicant < mo) := by
  intro w mo g hw hnn hsum
  rw [inputModifier_random_eq w mo g hw hnn hsum]
  constructor
  · intro hmo
    rw [if_pos hmo]
  · intro im g2 hok
    by_cases hmo : mo ≤ 0
    · rw [if_pos hmo] at hok
      exact absurd hok (by simp)
    · rw [if_neg hmo] at hok
      have h0 : 0 < mo := by omega
      have h1 : 0 < mo.toNat := by omega
      have h2 : g.stream (g.pos + 1) % mo.toNat < mo.toNat := Nat.mod_lt _ h1
      have hpair := Except.ok.inj hok
      simp only [Prod.mk.injEq] at hpair
      obtain ⟨him, -⟩ := hpair
      rw [← him]
      refine ⟨Int.ofNat_nonneg _, ?_⟩
      have h3 : (((g.stream (g.pos + 1)) % mo.toNat : Nat) : ℤ) < (mo.toNat : ℤ) := by
        exact_mod_cast h2
      rwa [Int.toNat_of_nonneg (le_of_lt h0)] at h3

/-- Claim C8 witness: with bound 0 the sampler fails with the empty-range
    error, and with bound 5 on the stream `gW8` it returns operand 3, which
    lies in `[0, 5)`. -/
theorem inputModifier_random_operand_range_witness :
    InputModifier.random imw4 0 ⟨fun _ => 0, 0⟩ = .error .emptyRange ∧
    (0 ≤ (⟨.ADD, 3⟩ : InputModifier).applicant ∧
      (⟨.ADD, 3⟩ : InputModifier).applicant < 5) :=
  ⟨(inputModifier_random_operand_range imw4 0 ⟨fun _ => 0, 0⟩ rfl (by decide)
      (by decide)).1 (by decide),
   (inputModifier_random_operand_range imw4 5 gW8 rfl (by decide)
      (by decide)).2 ⟨.ADD, 3⟩ ⟨gW8.stream, 2⟩ (by rfl)⟩

/-- Claim C9 (counterexample): the claim describes `trigger`'s results as
    `(Mutation, value)` pairs.  The code's traversal outcome carries no
    mutation at all: on the leaf `leafC` with stimulus 5 it is the absent
    value `None`. -/
theorem trigger_result_lacks_mutation : leafC.trigger 5 = .ok none := by rfl

/-- Claim C9 (amended): `trigger` is a pure, deterministic function of the
    tree and the stimulus.  With the process-wide random source — the
    module's only shared mutable state — threaded through explicitly
    (`triggerW`), the outcome neither depends on that state nor changes it:
    it equals the stateless `trigger` paired with the state handed in.
    Hence two invocations on the same tree and stimulus yield identical
    results, and the tree itself is never written. -/
theorem trigger_stateless_deterministic : ∀ (t : ResponseNetNode) (s : ℚ) (g : RNG),
    t.triggerW s g = (t.trigger s).map (fun r => (r, g)) := by
  intro t s g
  obtain ⟨c, children, im, m⟩ := t
  cases h : im.apply s with
  | error e =>
    simp only [ResponseNetNode.triggerW, ResponseNetNode.trigger, h]
    rfl
  | ok v =>
    cases children with
    | nil =>
      simp only [ResponseNetNode.triggerW, ResponseNetNode.trigger, h,
        ResponseNetNode.triggerScanW, ResponseNetNode.triggerScan]
      rfl
    | cons hd tl =>
      simp only [ResponseNetNode.triggerW, ResponseNetNode.trigger, h,
        ResponseNetNode.triggerScanW, ResponseNetNode.triggerScan,
        isActiveOneArgCall]
      rfl

/-- Claim C10: with `max_children = 1` the child-count draw is
    `randrange(1) = 0`, so on every valid weight table (correct arity,
    non-negative entries summing to 1), every positive operand bound, every
    fuel and every entropy stream the generator succeeds and returns a node
    with an empty children list. -/
theorem random_single_max_children_leaf :
    ∀ (cw imw mw : List ℚ) (mim : Int) (fuel : Nat) (g : RNG),
    cw.length = 6 → (∀ x ∈ cw, 0 ≤ x) → cw.sum = 1 →
    imw.length = 4 → (∀ x ∈ imw, 0 ≤ x) → imw.sum = 1 →
    mw.length = 2 → (∀ x ∈ mw, 0 ≤ x) → mw.sum = 1 → 0 < mim →
    ∃ node g2, ResponseNetNode.random cw 1 imw mim mw fuel g = .ok (node, g2) ∧
      node.children = [] := by
  intro cw imw mw mim fuel g hcw hnncw hscw himw hnnimw hsimw hmw hnnmw hsmw hmim
  have hmo : ¬ mim ≤ 0 := by omega
  rw [ResponseNetNode.random]
  simp only [randrange, RNG.next, Condition.random,
    ModificationOperation.random, Mutation.random, InputModifier.random,
    exceptBindOk, exceptBindError]
  norm_num [hmo, Nat.mod_one]
  simp only [exceptBindOk]
  rw [choice_valid _ cw _ (by simp [hcw]) (by norm_num) hnncw hscw]
  simp only [exceptBindOk]
  norm_num
  rw [choice_valid _ imw _ (by simp [himw]) (by norm_num) hnnimw hsimw]
  simp only [exceptBindOk]
  norm_num [hmo]
  rw [choice_valid _ mw _ (by simp [hmw]) (by norm_num) hnnmw hsmw]
  simp only [exceptBindOk]
  exact ⟨_, ⟨_, rfl⟩, rfl⟩

/-- Claim C10 witness: the generator at `max_children = 1` on a zero stream
    with the concrete valid tables yields a leaf. -/
theorem random_single_max_children_leaf_witness :
    ∃ node g2, ResponseNetNode.random cw6 1 imw4 5 mw2 0 ⟨fun _ => 0, 0⟩
      = .ok (node, g2) ∧ node.children = [] :=
  random_single_max_children_leaf cw6 imw4 mw2 5 0 ⟨fun _ => 0, 0⟩
    rfl (by decide) (by decide) rfl (by decide) (by decide)
    rfl (by decide) (by decide) (by decide)
